import Mathlib

/-!
# grnci: the thread-limit shim (src/grnci.c)

A shallow embedding of the translation unit `src/grnci.c` and of the part of the
host library (groonga's thread-limit extension point) it talks to.

C functions are embedded in state-passing style with an explicit fault channel:
a call takes the program state and either ends normally with a result and a new
state, or ends with a `Fault`.  The shim's three functions are translated
statement by statement from `src/grnci.c`; the four host functions
(`grn_thread_set_get_limit_func`, `grn_thread_set_set_limit_func`,
`grn_thread_get_limit`, `grn_thread_set_limit`) belong to the external library
and are modelled from the specification.
-/

set_option linter.unusedVariables false

namespace Grnci

/-! ## C-level data -/

/-- C pointer to void: either the null pointer or an address. -/
abbrev VoidPtr := Option Nat

/-- The null pointer constant. -/
def NULL : VoidPtr := none

/-- C unsigned 32-bit integer, carried as a natural number.  The unit performs no
arithmetic on such values (the only one it produces is the literal 1), so no
reduction modulo 2^32 is ever needed; theorems quantify over every natural
number, which covers every 32-bit value. -/
abbrev uint32_t := Nat

/-- Largest value of a 32-bit unsigned integer. -/
def UINT32_MAX : Nat := 2 ^ 32 - 1

/-- Abnormal end of a C call: the ways a callback body could fail to return. -/
inductive Fault where
  | invalid_access
  | abort
  deriving DecidableEq, Repr

/-- A C call on a program state of type σ with result type α: it either returns
a result together with the state it leaves, or ends with a fault. -/
abbrev C (σ α : Type) := StateT σ (Except Fault) α

/-- Type of a get-limit callback, `uint32_t (*)(void *data)`. -/
abbrev grn_thread_get_limit_func (σ : Type) := VoidPtr → C σ uint32_t

/-- Type of a set-limit callback, `void (*)(uint32_t new_limit, void *data)`. -/
abbrev grn_thread_set_limit_func (σ : Type) := uint32_t → VoidPtr → C σ Unit

/-! ## The shim, from src/grnci.c -/

/-- Source lines 5 to 9: `static uint32_t grnci_get_thread_limit(void *data) { return 1; }`.
The body reads neither `data` nor the state. -/
def grnci_get_thread_limit {σ : Type} (data : VoidPtr) : C σ uint32_t :=
  pure 1

/-- Source lines 11 to 14: `static void grnci_set_thread_limit(uint32_t new_limit, void *data) { }`.
The body is empty. -/
def grnci_set_thread_limit {σ : Type} (new_limit : uint32_t) (data : VoidPtr) : C σ Unit :=
  pure ()

/-! ## The host library's thread-limit extension point -/

/-- Modelled from the spec: the host library's global function-pointer slots of
its thread-limit extension point (the library is external, its code is not in
this repository).  Each slot holds a function pointer, possibly null, and the
data pointer registered with it; `rest` stands for every other component of the
program state, of an arbitrary type σ, and is the state callbacks run on. -/
structure Host (σ : Type) where
  get_limit_func : Option (grn_thread_get_limit_func σ)
  get_limit_func_data : VoidPtr
  set_limit_func : Option (grn_thread_set_limit_func σ)
  set_limit_func_data : VoidPtr
  rest : σ

/-- Modelled from the spec: the host library's registration call for the
get-limit hook, absent from this repository.  It stores the function pointer and
the data pointer in the get-limit slot. -/
def grn_thread_set_get_limit_func {σ : Type}
    (func : Option (grn_thread_get_limit_func σ)) (data : VoidPtr) : C (Host σ) Unit :=
  fun h => pure ((), { h with get_limit_func := func, get_limit_func_data := data })

/-- Modelled from the spec: the host library's registration call for the
set-limit hook, absent from this repository.  It stores the function pointer and
the data pointer in the set-limit slot. -/
def grn_thread_set_set_limit_func {σ : Type}
    (func : Option (grn_thread_set_limit_func σ)) (data : VoidPtr) : C (Host σ) Unit :=
  fun h => pure ((), { h with set_limit_func := func, set_limit_func_data := data })

/-- Modelled from the spec: the host library's get-limit dispatch, absent from
this repository.  It calls the function in the get-limit slot with the slot's
data pointer and returns what the callback returns; with an empty slot it
returns 0 (the host library's convention for "no getter registered", used by no
theorem below). -/
def grn_thread_get_limit {σ : Type} : C (Host σ) uint32_t :=
  fun h =>
    match h.get_limit_func with
    | none => pure (0, h)
    | some func =>
      match func h.get_limit_func_data h.rest with
      | Except.ok (limit, r) => pure (limit, { h with rest := r })
      | Except.error e => throw e

/-- Modelled from the spec: the host library's set-limit dispatch, absent from
this repository.  It calls the function in the set-limit slot with the requested
limit and the slot's data pointer; with an empty slot it does nothing. -/
def grn_thread_set_limit {σ : Type} (new_limit : uint32_t) : C (Host σ) Unit :=
  fun h =>
    match h.set_limit_func with
    | none => pure ((), h)
    | some func =>
      match func new_limit h.set_limit_func_data h.rest with
      | Except.ok (_, r) => pure ((), { h with rest := r })
      | Except.error e => throw e

/-! ## Initialisation, from src/grnci.c -/

/-- Source lines 16 to 20:
`grn_thread_set_get_limit_func(grnci_get_thread_limit, NULL);`
`grn_thread_set_set_limit_func(grnci_set_thread_limit, NULL);` -/
def grnci_init_thread_limit {σ : Type} : C (Host σ) Unit := do
  grn_thread_set_get_limit_func (some grnci_get_thread_limit) NULL
  grn_thread_set_set_limit_func (some grnci_set_thread_limit) NULL

/-- A finite sequence of set-limit requests, dispatched one after the other
through the host. -/
def set_limit_requests {σ : Type} : List uint32_t → C (Host σ) Unit
  | [] => pure ()
  | new_limit :: more => do
    grn_thread_set_limit new_limit
    set_limit_requests more

/-- The host state with both thread-limit slots holding the shim's callbacks and
null data pointers, every other component taken from `h`. -/
def installed {σ : Type} (h : Host σ) : Host σ :=
  { get_limit_func := some grnci_get_thread_limit
    get_limit_func_data := NULL
    set_limit_func := some grnci_set_thread_limit
    set_limit_func_data := NULL
    rest := h.rest }

/-- One call of a shim callback, as a client of the callbacks may issue it. -/
inductive Call where
  | get (data : VoidPtr)
  | set (new_limit : uint32_t) (data : VoidPtr)
  deriving DecidableEq, Repr

/-- Performs one callback call, discarding the getter's result. -/
def Call.run {σ : Type} : Call → C σ Unit
  | Call.get data => do
    let _ ← grnci_get_thread_limit data
    pure ()
  | Call.set new_limit data => grnci_set_thread_limit new_limit data

/-- Performs a finite sequence of callback calls, in order. -/
def run_calls {σ : Type} : List Call → C σ Unit
  | [] => pure ()
  | c :: cs => do
    c.run
    run_calls cs

/-- Any prior calls, then the getter. -/
def get_after_calls {σ : Type} (prior : List Call) (data : VoidPtr) : C σ uint32_t := do
  run_calls prior
  grnci_get_thread_limit data

/-- The setter, then the getter. -/
def set_then_get {σ : Type} (new_limit : uint32_t) (data data2 : VoidPtr) : C σ uint32_t := do
  grnci_set_thread_limit new_limit data
  grnci_get_thread_limit data2

/-- Initialisation, then a sequence of set-limit requests through the host, then
a get-limit through the host. -/
def init_requests_get {σ : Type} (requests : List uint32_t) : C (Host σ) uint32_t := do
  grnci_init_thread_limit
  set_limit_requests requests
  grn_thread_get_limit

/-- Initialisation performed twice in a row. -/
def init_twice {σ : Type} : C (Host σ) Unit := do
  grnci_init_thread_limit
  grnci_init_thread_limit

/-- The result of a call, when it ended normally. -/
def returned {σ α : Type} : Except Fault (α × σ) → Option α
  | Except.ok (a, _) => some a
  | Except.error _ => none

/-! ## Shared lemmas -/

theorem bind_ok {σ α β : Type} (x : C σ α) (f : α → C σ β) (s t : σ) (a : α)
    (hx : x s = Except.ok (a, t)) : (x >>= f) s = f a t := by
  show (x s >>= fun p => f p.1 p.2) = f a t
  rw [hx]
  rfl

theorem init_run {σ : Type} (h : Host σ) :
    grnci_init_thread_limit h = Except.ok ((), installed h) := rfl

theorem set_limit_installed {σ : Type} (new_limit : uint32_t) (h : Host σ) :
    grn_thread_set_limit new_limit (installed h) = Except.ok ((), installed h) := rfl

theorem get_limit_installed {σ : Type} (h : Host σ) :
    grn_thread_get_limit (installed h) = Except.ok (1, installed h) := rfl

theorem call_run {σ : Type} (c : Call) (s : σ) : c.run s = Except.ok ((), s) := by
  cases c <;> rfl

theorem run_calls_run {σ : Type} (cs : List Call) (s : σ) :
    run_calls cs s = Except.ok ((), s) := by
  induction cs with
  | nil => rfl
  | cons c cs ih =>
    show (c.run >>= fun _ => run_calls cs) s = Except.ok ((), s)
    rw [bind_ok _ _ s s () (call_run c s)]
    exact ih

theorem set_limit_requests_installed {σ : Type} (requests : List uint32_t) (h : Host σ) :
    set_limit_requests requests (installed h) = Except.ok ((), installed h) := by
  induction requests with
  | nil => rfl
  | cons n ns ih =>
    show (grn_thread_set_limit n >>= fun _ => set_limit_requests ns) (installed h)
      = Except.ok ((), installed h)
    rw [bind_ok _ _ _ _ () (set_limit_installed n h)]
    exact ih

theorem init_requests_get_run {σ : Type} (requests : List uint32_t) (h : Host σ) :
    init_requests_get requests h = Except.ok (1, installed h) := by
  show (grnci_init_thread_limit >>= fun _ =>
      (set_limit_requests requests >>= fun _ => grn_thread_get_limit)) h
    = Except.ok (1, installed h)
  rw [bind_ok _ _ _ _ () (init_run h),
    bind_ok _ _ _ _ () (set_limit_requests_installed requests h)]
  rfl

/-! ## Evaluation on concrete inputs -/

/-- A host state with both slots empty, over a one-number program state. -/
def empty_host : Host Nat :=
  { get_limit_func := none
    get_limit_func_data := NULL
    set_limit_func := none
    set_limit_func_data := NULL
    rest := 7 }

/-- A host state whose slots hold callbacks that end with a fault. -/
def faulty_host : Host Nat :=
  { get_limit_func := some (fun _ _ => Except.error Fault.abort)
    get_limit_func_data := some 4096
    set_limit_func := some (fun _ _ _ => Except.error Fault.invalid_access)
    set_limit_func_data := some 8192
    rest := 7 }

theorem eval_get_null : returned (grnci_get_thread_limit NULL (7 : Nat)) = some 1 := by
  decide

theorem eval_get_addr : returned (grnci_get_thread_limit (some 4096) (0 : Nat)) = some 1 := by
  decide

theorem eval_empty_host_get : returned (grn_thread_get_limit empty_host) = some 0 := by
  decide

theorem eval_faulty_host_get : returned (grn_thread_get_limit faulty_host) = none := by
  decide

theorem eval_init_requests_get_empty :
    returned (init_requests_get [4, 0, 4294967295] empty_host) = some 1 := by
  decide

theorem eval_init_requests_get_faulty :
    returned (init_requests_get [8] faulty_host) = some 1 := by
  decide

/-! ## The claims -/

/-- C1: for every data pointer (the null pointer included) and every program
state, grnci_get_thread_limit ends normally and returns exactly 1, a value in
the 32-bit range, leaving the state as it found it; the result is the same for
any two data pointers and any two states, and is still 1 after an arbitrary
finite sequence of prior getter and setter calls. -/
theorem grnci_get_thread_limit_returns_one {σ : Type} (data data2 : VoidPtr) (s s2 : σ)
    (prior : List Call) :
    grnci_get_thread_limit data s = Except.ok (1, s)
    ∧ grnci_get_thread_limit NULL s = Except.ok (1, s)
    ∧ returned (grnci_get_thread_limit data s) = some 1
    ∧ returned (grnci_get_thread_limit data s) = returned (grnci_get_thread_limit data2 s2)
    ∧ returned (get_after_calls prior data s) = some 1
    ∧ 1 ≤ UINT32_MAX := by
  refine ⟨rfl, rfl, rfl, rfl, ?_, by decide⟩
  have hrun : get_after_calls prior data s = Except.ok (1, s) := by
    show (run_calls prior >>= fun _ => grnci_get_thread_limit data) s = Except.ok (1, s)
    rw [bind_ok _ _ s s () (run_calls_run prior s)]
    rfl
  rw [hrun]
  rfl

/-- C2: for every requested limit (every natural number, so every 32-bit value)
and every data pointer, grnci_set_thread_limit ends normally with the state
after the call equal to the state before it; the request is ignored, a getter
call that follows returns what it returns without the setter call, namely 1. -/
theorem grnci_set_thread_limit_no_effect {σ : Type} (new_limit : uint32_t)
    (data data2 : VoidPtr) (s : σ) :
    grnci_set_thread_limit new_limit data s = Except.ok ((), s)
    ∧ set_then_get new_limit data data2 s = grnci_get_thread_limit data2 s
    ∧ returned (set_then_get new_limit data data2 s) = some 1 :=
  ⟨rfl, rfl, rfl⟩

/-- C3: from any host state, after grnci_init_thread_limit and any finite
sequence of set-limit requests with arbitrary values dispatched through the
host, a get-limit dispatched through the host ends normally and returns 1; in
particular a single request for any limit n, equal to 1 or not, is followed by a
get-limit of 1. -/
theorem limit_fixed_at_one_after_init {σ : Type} (h : Host σ) (requests : List uint32_t)
    (n : uint32_t) :
    returned (init_requests_get requests h) = some 1
    ∧ init_requests_get requests h = Except.ok (1, installed h)
    ∧ returned (init_requests_get [n] h) = some 1 := by
  refine ⟨?_, init_requests_get_run requests h, ?_⟩
  · rw [init_requests_get_run requests h]
    rfl
  · rw [init_requests_get_run [n] h]
    rfl

/-- C4: from any host state, grnci_init_thread_limit ends normally and leaves
the get-limit slot holding grnci_get_thread_limit with a null data pointer and
the set-limit slot holding grnci_set_thread_limit with a null data pointer,
whatever the slots held before. -/
theorem grnci_init_thread_limit_wires_slots {σ : Type} (h : Host σ) :
    ∃ h2 : Host σ, grnci_init_thread_limit h = Except.ok ((), h2)
      ∧ h2.get_limit_func = some grnci_get_thread_limit
      ∧ h2.get_limit_func_data = NULL
      ∧ h2.set_limit_func = some grnci_set_thread_limit
      ∧ h2.set_limit_func_data = NULL :=
  ⟨installed h, rfl, rfl, rfl, rfl, rfl⟩

/-- C5: neither callback can fail: for every data pointer, every requested
limit and every state, grnci_get_thread_limit and grnci_set_thread_limit end
normally with a result, and never end with a fault. -/
theorem callbacks_cannot_fail {σ : Type} (data : VoidPtr) (new_limit : uint32_t) (s : σ) :
    (∃ r : uint32_t × σ, grnci_get_thread_limit data s = Except.ok r)
    ∧ (∃ r : Unit × σ, grnci_set_thread_limit new_limit data s = Except.ok r)
    ∧ (∀ e : Fault, grnci_get_thread_limit data s ≠ Except.error e)
    ∧ (∀ e : Fault, grnci_set_thread_limit new_limit data s ≠ Except.error e) := by
  refine ⟨⟨(1, s), rfl⟩, ⟨((), s), rfl⟩, ?_, ?_⟩
  · intro e hfail
    have hok : grnci_get_thread_limit data s = Except.ok (1, s) := rfl
    rw [hok] at hfail
    cases hfail
  · intro e hfail
    have hok : grnci_set_thread_limit new_limit data s = Except.ok ((), s) := rfl
    rw [hok] at hfail
    cases hfail

/-- C6: from any host state, grnci_init_thread_limit ends normally in the state
that differs from the initial one in the two thread-limit slots and their data
pointers only: every other component of the state is the same after the call as
before.  The shim has no state of its own: its callbacks leave every state they
run on unchanged, also when dispatched through the host after initialisation. -/
theorem grnci_init_thread_limit_frame {σ : Type} (h : Host σ) (data : VoidPtr)
    (new_limit : uint32_t) (s : σ) :
    (∃ h2 : Host σ, grnci_init_thread_limit h = Except.ok ((), h2)
      ∧ h2.rest = h.rest
      ∧ h2 = { h with get_limit_func := h2.get_limit_func
                      get_limit_func_data := h2.get_limit_func_data
                      set_limit_func := h2.set_limit_func
                      set_limit_func_data := h2.set_limit_func_data })
    ∧ grnci_get_thread_limit data s = Except.ok (1, s)
    ∧ grnci_set_thread_limit new_limit data s = Except.ok ((), s)
    ∧ grn_thread_get_limit (installed h) = Except.ok (1, installed h)
    ∧ grn_thread_set_limit new_limit (installed h) = Except.ok ((), installed h) :=
  ⟨⟨installed h, rfl, rfl, rfl⟩, rfl, rfl, rfl, rfl⟩

/-- C7: grnci_init_thread_limit is idempotent: from any host state, calling it
twice ends in exactly the state a single call ends in, so the two thread-limit
slots, functions and data pointers, are as a single call leaves them. -/
theorem grnci_init_thread_limit_idempotent {σ : Type} (h : Host σ) :
    init_twice h = grnci_init_thread_limit h
    ∧ ∃ h1 h2 : Host σ, grnci_init_thread_limit h = Except.ok ((), h1)
        ∧ init_twice h = Except.ok ((), h2)
        ∧ h2.get_limit_func = h1.get_limit_func
        ∧ h2.get_limit_func_data = h1.get_limit_func_data
        ∧ h2.set_limit_func = h1.set_limit_func
        ∧ h2.set_limit_func_data = h1.set_limit_func_data :=
  ⟨rfl, installed h, installed h, rfl, rfl, rfl, rfl, rfl, rfl⟩

end Grnci
